import Mathlib

/-!
Verification development for the Space-traveler space app data layer
(`app.py` / `dataCaching.py`): the altitude estimator, debris classifier,
record normalizer, fetch-and-cache layer and statistics aggregator, embedded
shallowly and checked against the specification.
-/

open Classical

/-- A JSON numeric field as consumed through Python float-coercion:
either an actual numeric value (a number, or a numeric string that
float-parses), or a present-but-non-numeric value on which float raises. -/
inductive JsonNum where
  | num (q : ℚ)
  | nonNumeric
deriving DecidableEq

/-- A raw catalog record from the remote source: an open key/value record of
which the code consumes these fields; a missing key is `none`. -/
structure RawCatalogRecord where
  OBJECT_NAME : Option String := none
  OBJECT_ID : Option String := none
  NORAD_CAT_ID : Option ℤ := none
  EPOCH : Option String := none
  MEAN_MOTION : Option JsonNum := none
  INCLINATION : Option ℚ := none
  PERIOD : Option ℚ := none
  OBJECT_TYPE : Option String := none
deriving DecidableEq

/-- Models the Python expression float(obj.get(field, 0)): a missing field
defaults to 0, a numeric value parses, a non-numeric value raises
(represented as `none`). -/
def floatParse : Option JsonNum → Option ℚ
  | none => some 0
  | some (JsonNum.num q) => some q
  | some JsonNum.nonNumeric => none

/-- The mathematical value rounded to 2 decimal places, modelling
round(x, 2). -/
noncomputable def round2 (x : ℝ) : ℝ := (round (x * 100) : ℤ) / 100

/-- The Kepler altitude formula of calculate_altitude for a nonzero mean
motion (revolutions/day), in exact real arithmetic. -/
noncomputable def keplerAltitude (mean_motion : ℚ) : ℝ :=
  let earth_radius : ℝ := 6371
  let mu : ℝ := 398600.4418
  let period : ℝ := 1440 / (mean_motion : ℝ)
  let period_seconds : ℝ := period * 60
  let a : ℝ := (mu * (period_seconds / (2 * Real.pi)) ^ (2 : ℕ)) ^ ((1 : ℝ) / 3)
  a - earth_radius

/-- calculate_altitude from app.py: float-parse MEAN_MOTION with default 0
(a parse failure is caught and yields None), return None on a zero mean
motion, otherwise the rounded Kepler altitude. -/
noncomputable def calculate_altitude (obj : RawCatalogRecord) : Option ℝ :=
  match floatParse obj.MEAN_MOTION with
  | none => none
  | some mean_motion =>
    if mean_motion = 0 then none
    else some (round2 (keplerAltitude mean_motion))

/-- Whether the second character list starts with the first (the pattern). -/
def listStartsWith : List Char → List Char → Bool
  | [], _ => true
  | _ :: _, [] => false
  | a :: as, b :: bs => a == b && listStartsWith as bs

/-- Whether the pattern occurs contiguously inside the character list,
modelling the Python substring operator. -/
def listContainsSeq (pat : List Char) : List Char → Bool
  | [] => listStartsWith pat []
  | c :: rest => listStartsWith pat (c :: rest) || listContainsSeq pat rest

/-- Python substring test: pat occurs in s. -/
def strContains (s pat : String) : Bool := listContainsSeq pat.data s.data

/-- Python str.upper, character by character (ASCII case mapping, which is
all the classifier patterns exercise). -/
def strUpper (s : String) : String := String.mk (s.data.map Char.toUpper)

/-- The Python slice s[:2]: the first (at most) two characters. -/
def strTake2 (s : String) : String := String.mk (s.data.take 2)

/-- The debris test applied to each record by filter_debris_only: uppercase
the (defaulted) OBJECT_TYPE and OBJECT_NAME and check the five substring
conditions. -/
def isDebris (obj : RawCatalogRecord) : Bool :=
  let obj_type := strUpper (obj.OBJECT_TYPE.getD "")
  let obj_name := strUpper (obj.OBJECT_NAME.getD "")
  strContains obj_type "DEBRIS" ||
  strContains obj_type "ROCKET BODY" ||
  strContains obj_type "DEB" ||
  strContains obj_name "DEB" ||
  strContains obj_name "R/B"

/-- filter_debris_only from app.py: keep exactly the records passing the
debris test, in order. -/
def filter_debris_only : List RawCatalogRecord → List RawCatalogRecord
  | [] => []
  | obj :: rest =>
    if isDebris obj then obj :: filter_debris_only rest
    else filter_debris_only rest

/-- The simplified view model produced by parse_satellite_data. -/
structure DebrisView where
  name : String
  satellite_id : Option ℤ
  country : String
  launch_date : Option String
  altitude_km : Option ℝ
  inclination : Option ℚ
  period_minutes : Option ℚ
  object_type : String

/-- parse_satellite_data from app.py: project each record to the view model,
deriving the country code from the first two characters of OBJECT_ID
(defaulted to UN when absent) and the altitude via calculate_altitude. -/
noncomputable def parse_satellite_data (data : List RawCatalogRecord) : List DebrisView :=
  data.map (fun obj =>
    { name := obj.OBJECT_NAME.getD "Unknown"
      satellite_id := obj.NORAD_CAT_ID
      country := strTake2 (obj.OBJECT_ID.getD "UN")
      launch_date := obj.EPOCH
      altitude_km := calculate_altitude obj
      inclination := obj.INCLINATION
      period_minutes := obj.PERIOD
      object_type := obj.OBJECT_TYPE.getD "UNKNOWN" })

/-- Python dict lookup with default 0: d.get(k, 0), reading the first
matching entry. -/
def dictGet : List (String × ℕ) → String → ℕ
  | [], _ => 0
  | (k1, v) :: rest, k => if k1 = k then v else dictGet rest k

/-- Python dict assignment d[k] = v: replace the value at an existing key,
else append a new entry (insertion order preserved). -/
def dictSet : List (String × ℕ) → String → ℕ → List (String × ℕ)
  | [], k, v => [(k, v)]
  | (k1, v1) :: rest, k, v =>
    if k1 = k then (k, v) :: rest else (k1, v1) :: dictSet rest k v

/-- The increment pattern d[k] = d.get(k, 0) + 1 used by the stats loop. -/
def dictIncrement (d : List (String × ℕ)) (k : String) : List (String × ℕ) :=
  dictSet d k (dictGet d k + 1)

/-- Sum of the values of a counting dict. -/
def sumValues (d : List (String × ℕ)) : ℕ := (d.map Prod.snd).sum

/-- The fixed-key altitude_ranges dict of get_debris_stats; the three fields
are the buckets keyed Low (0-2000 km), Medium (2000-35000 km) and
High (35000+ km). -/
structure AltitudeRanges where
  low : ℕ
  medium : ℕ
  high : ℕ
deriving DecidableEq

/-- Total count across the three altitude buckets. -/
def altSum (b : AltitudeRanges) : ℕ := b.low + b.medium + b.high

/-- The statistics payload returned by get_debris_stats. -/
structure StatsSummary where
  total_debris : ℕ
  by_country : List (String × ℕ)
  by_altitude : AltitudeRanges
  by_type : List (String × ℕ)

/-- The altitude tally step of the stats loop: Python `if altitude:` is
false for None and for 0.0, then the chain altitude < 2000 / < 35000 /
else selects the bucket. -/
noncomputable def altitudeStep (ranges : AltitudeRanges) (obj : RawCatalogRecord) :
    AltitudeRanges :=
  match calculate_altitude obj with
  | none => ranges
  | some altitude =>
    if altitude = 0 then ranges
    else if altitude < 2000 then { ranges with low := ranges.low + 1 }
    else if altitude < 35000 then { ranges with medium := ranges.medium + 1 }
    else { ranges with high := ranges.high + 1 }

/-- One iteration of the stats loop in get_debris_stats: increment the
country bucket (first two characters of OBJECT_ID, default UN), the type
bucket (raw OBJECT_TYPE, default UNKNOWN) and at most one altitude bucket. -/
noncomputable def statsStep (s : StatsSummary) (obj : RawCatalogRecord) : StatsSummary :=
  { s with
    by_country := dictIncrement s.by_country (strTake2 (obj.OBJECT_ID.getD "UN"))
    by_type := dictIncrement s.by_type (obj.OBJECT_TYPE.getD "UNKNOWN")
    by_altitude := altitudeStep s.by_altitude obj }

/-- The statistics computation of get_debris_stats over the selected debris
list: total taken up front, then a single left-to-right pass. -/
noncomputable def computeStats (debris : List RawCatalogRecord) : StatsSummary :=
  debris.foldl statsStep
    { total_debris := debris.length
      by_country := []
      by_altitude := { low := 0, medium := 0, high := 0 }
      by_type := [] }

/-- An empty statistics accumulator, for concrete instantiations. -/
def statsInit : StatsSummary :=
  { total_debris := 0
    by_country := []
    by_altitude := { low := 0, medium := 0, high := 0 }
    by_type := [] }

/-- The payload of the listing endpoint /api/debris. -/
structure DebrisResponse where
  count : ℕ
  debris : List DebrisView
  total_tracked : ℕ

/-- get_debris_data from app.py, after the fetch: error (None) when the
fetched data is absent or empty, else filter to debris, fall back to the
whole input when the filter is empty, normalize, and answer with the count,
the first 100 views and the total tracked. -/
noncomputable def get_debris_data (all_data : Option (List RawCatalogRecord)) :
    Option DebrisResponse :=
  match all_data with
  | none => none
  | some all_data =>
    if all_data = [] then none
    else
      let debris := filter_debris_only all_data
      let debris := if debris = [] then all_data else debris
      let simplified := parse_satellite_data debris
      some { count := simplified.length
             debris := simplified.take 100
             total_tracked := all_data.length }

/-- get_debris_stats from app.py, after the fetch: error (None) when the
fetched data is absent or empty, else filter to debris, fall back to the
whole input when the filter is empty, and aggregate. -/
noncomputable def get_debris_stats (all_data : Option (List RawCatalogRecord)) :
    Option StatsSummary :=
  match all_data with
  | none => none
  | some all_data =>
    if all_data = [] then none
    else
      let debris := filter_debris_only all_data
      let debris := if debris = [] then all_data else debris
      some (computeStats debris)

/-- Outcome of the single HTTP GET performed by fetch_celestrak_data:
a 2xx JSON body, a non-2xx status (raise_for_status raises), or a
network/timeout failure. -/
inductive HttpOutcome where
  | success (body : List RawCatalogRecord)
  | httpError
  | networkError
deriving DecidableEq

/-- fetch_celestrak_data from app.py in JSON mode: return the body on
success; any RequestException (non-2xx or network failure) is caught and
reported as no-data (None), never raised. -/
def fetch_celestrak_data : HttpOutcome → Option (List RawCatalogRecord)
  | HttpOutcome.success body => some body
  | HttpOutcome.httpError => none
  | HttpOutcome.networkError => none

/-- The cache envelope written to debris_cache.json. Timestamps are seconds. -/
structure CacheEnvelope where
  timestamp : ℚ
  data : List RawCatalogRecord
deriving DecidableEq

/-- The state of the cache file on disk: missing, unparsable JSON, parsable
but lacking a usable timestamp field, or a valid envelope. -/
inductive CacheFile where
  | absent
  | corrupt
  | noTimestamp
  | valid (env : CacheEnvelope)
deriving DecidableEq

/-- Reading the cache file: the existence check plus the try-block around
json.load and fromisoformat; every failure mode collapses to None. -/
def readCache : CacheFile → Option CacheEnvelope
  | CacheFile.valid env => some env
  | _ => none

/-- CACHE_DURATION = timedelta(hours=6), in seconds. -/
def CACHE_DURATION : ℚ := 6 * 3600

/-- Result of one call to the cache layer: the returned data, the cache file
afterwards, and how many remote fetches were performed. -/
structure FetchResult where
  data : Option (List RawCatalogRecord)
  newFile : CacheFile
  remoteCalls : ℕ
deriving DecidableEq

/-- The fetch-fresh path of get_cached_or_fetch: one remote call; the cache
is overwritten only when the result is truthy (Python `if data:` is false
for None and for an empty list). -/
def fetchFresh (now : ℚ) (file : CacheFile) (o : HttpOutcome) : FetchResult :=
  match fetch_celestrak_data o with
  | some d =>
    if d = [] then { data := some d, newFile := file, remoteCalls := 1 }
    else { data := some d
           newFile := CacheFile.valid { timestamp := now, data := d }
           remoteCalls := 1 }
  | none => { data := none, newFile := file, remoteCalls := 1 }

/-- get_cached_or_fetch from app.py: serve the cached data when the file is
readable and its timestamp is within CACHE_DURATION of now; any read failure
or staleness falls through to a fresh fetch. -/
def get_cached_or_fetch (now : ℚ) (file : CacheFile) (o : HttpOutcome) : FetchResult :=
  match readCache file with
  | some cache =>
    if now - cache.timestamp < CACHE_DURATION then
      { data := some cache.data, newFile := file, remoteCalls := 0 }
    else fetchFresh now file o
  | none => fetchFresh now file o

/-- Case-insensitive substring containment, the rule language of the
specification for the debris classifier. -/
def ciContainsStr (s pat : String) : Bool := strContains (strUpper s) (strUpper pat)

/-- Modelled from the spec wording for the country-code derivation: the
first two characters of OBJECT_ID, defaulting to UN when the field is
absent. -/
def specCountryCode (r : RawCatalogRecord) : String :=
  match r.OBJECT_ID with
  | none => "UN"
  | some id => strTake2 id

/-- A concrete record with mean motion 15.5 revolutions/day. -/
def r155 : RawCatalogRecord := { MEAN_MOTION := some (JsonNum.num (31 / 2)) }

/-- A concrete record with mean motion 100 revolutions/day, whose Kepler
altitude is far below the Earth radius and hence negative. -/
def r100 : RawCatalogRecord := { MEAN_MOTION := some (JsonNum.num 100) }

/-- A concrete rocket-body record. -/
def rBody : RawCatalogRecord := { OBJECT_NAME := some "SL-8 R/B" }

/-- A concrete non-debris record. -/
def rPayload : RawCatalogRecord :=
  { OBJECT_NAME := some "ALPHA SAT", OBJECT_TYPE := some "PAYLOAD" }

/-- A concrete record whose OBJECT_ID is present but empty. -/
def rEmptyId : RawCatalogRecord := { OBJECT_ID := some "" }

/-- Incrementing a counting dict adds exactly one to the sum of its values. -/
theorem sumValues_dictIncrement (d : List (String × ℕ)) (k : String) :
    sumValues (dictIncrement d k) = sumValues d + 1 := by
  induction d with
  | nil => simp [dictIncrement, dictSet, dictGet, sumValues]
  | cons hd tl ih =>
    obtain ⟨k1, v1⟩ := hd
    by_cases h : k1 = k
    · subst h
      simp [dictIncrement, dictSet, dictGet, sumValues]
      omega
    · simp only [dictIncrement, dictGet, dictSet, if_neg h] at ih ⊢
      simp only [sumValues, List.map_cons, List.sum_cons] at ih ⊢
      omega

/-- The fetch-fresh path performs exactly one remote call. -/
theorem fetchFresh_remoteCalls (now : ℚ) (f : CacheFile) (o : HttpOutcome) :
    (fetchFresh now f o).remoteCalls = 1 := by
  cases o with
  | success body =>
    by_cases hb : body = [] <;> simp [fetchFresh, fetch_celestrak_data, hb]
  | httpError => rfl
  | networkError => rfl

/-- The fetch-fresh path hands back exactly the fetch layer result. -/
theorem fetchFresh_data (now : ℚ) (f : CacheFile) (o : HttpOutcome) :
    (fetchFresh now f o).data = fetch_celestrak_data o := by
  cases o with
  | success body =>
    by_cases hb : body = [] <;> simp [fetchFresh, fetch_celestrak_data, hb]
  | httpError => rfl
  | networkError => rfl

/-- A list on which the debris test is everywhere false filters to empty. -/
theorem filter_debris_only_eq_nil (l : List RawCatalogRecord)
    (h : ∀ r ∈ l, isDebris r = false) : filter_debris_only l = [] := by
  induction l with
  | nil => rfl
  | cons a t ih =>
    have ha : isDebris a = false := h a (List.mem_cons_self a t)
    simp only [filter_debris_only, ha, Bool.false_eq_true, if_false]
    exact ih (fun r hr => h r (List.mem_cons_of_mem a hr))

/-- Claim C1: the altitude estimator returns None exactly when MEAN_MOTION is
missing, non-numeric, or zero; for any other mean motion m it returns the
Kepler-derived altitude round((mu * (((1440/m)*60) / (2*pi))^2)^(1/3) - 6371, 2). -/
theorem altitude_estimator_spec (r : RawCatalogRecord) :
    (calculate_altitude r = none ↔
      r.MEAN_MOTION = none ∨ r.MEAN_MOTION = some JsonNum.nonNumeric ∨
        r.MEAN_MOTION = some (JsonNum.num 0)) ∧
    (∀ q : ℚ, r.MEAN_MOTION = some (JsonNum.num q) → q ≠ 0 →
      calculate_altitude r = some (round2 (keplerAltitude q))) := by
  refine ⟨?_, ?_⟩
  · cases hm : r.MEAN_MOTION with
    | none => simp [calculate_altitude, floatParse, hm]
    | some jn =>
      cases jn with
      | num q =>
        by_cases hq : q = 0
        · subst hq; simp [calculate_altitude, floatParse, hm]
        · simp [calculate_altitude, floatParse, hm, hq]
      | nonNumeric => simp [calculate_altitude, floatParse, hm]
  · intro q hq hq0
    simp [calculate_altitude, floatParse, hq, hq0]

/-- Witness for C1 at a record with MEAN_MOTION = 15.5: the estimator
returns the rounded closed-form Kepler value. -/
theorem altitude_estimator_witness :
    calculate_altitude r155 = some (round2 (keplerAltitude (31 / 2))) :=
  (altitude_estimator_spec r155).2 (31 / 2) rfl (by norm_num)

/-- Claim C2: the debris classifier answers true exactly when one of the five
case-insensitive substring rules matches OBJECT_TYPE or OBJECT_NAME, with
missing fields treated as empty strings. -/
theorem debris_classifier_rules (r : RawCatalogRecord) :
    isDebris r = true ↔
      (ciContainsStr (r.OBJECT_TYPE.getD "") "DEBRIS" = true ∨
       ciContainsStr (r.OBJECT_TYPE.getD "") "ROCKET BODY" = true ∨
       ciContainsStr (r.OBJECT_TYPE.getD "") "DEB" = true ∨
       ciContainsStr (r.OBJECT_NAME.getD "") "DEB" = true ∨
       ciContainsStr (r.OBJECT_NAME.getD "") "R/B" = true) := by
  have h1 : strUpper "DEBRIS" = "DEBRIS" := by decide
  have h2 : strUpper "ROCKET BODY" = "ROCKET BODY" := by decide
  have h3 : strUpper "DEB" = "DEB" := by decide
  have h4 : strUpper "R/B" = "R/B" := by decide
  simp [isDebris, ciContainsStr, h1, h2, h3, h4, Bool.or_eq_true, or_assoc]

/-- Claim C3: on a non-empty input that the classifier rejects entirely, both
endpoints fall back to the whole unfiltered input: the listing endpoint
answers with the normalization of all records and the statistics endpoint
aggregates all records. -/
theorem empty_filter_fallback (all_data : List RawCatalogRecord)
    (hne : all_data ≠ [])
    (hnone : ∀ r ∈ all_data, isDebris r = false) :
    get_debris_data (some all_data) =
      some { count := (parse_satellite_data all_data).length
             debris := (parse_satellite_data all_data).take 100
             total_tracked := all_data.length } ∧
    get_debris_stats (some all_data) = some (computeStats all_data) := by
  have hfil : filter_debris_only all_data = [] := filter_debris_only_eq_nil _ hnone
  constructor
  · simp [get_debris_data, hne, hfil]
  · simp [get_debris_stats, hne, hfil]

/-- Witness for C3 at a one-element payload list. -/
theorem empty_filter_fallback_witness :
    get_debris_data (some [rPayload]) =
      some { count := (parse_satellite_data [rPayload]).length
             debris := (parse_satellite_data [rPayload]).take 100
             total_tracked := [rPayload].length } ∧
    get_debris_stats (some [rPayload]) = some (computeStats [rPayload]) :=
  empty_filter_fallback [rPayload] (by decide) (by decide)

/-- Claim C10: the debris filter yields a subsequence of its input: every
element comes from the input, in order, unduplicated and unmodified, and the
output is never longer than the input. -/
theorem filter_debris_sublist (l : List RawCatalogRecord) :
    List.Sublist (filter_debris_only l) l ∧
      (filter_debris_only l).length ≤ l.length := by
  have h : List.Sublist (filter_debris_only l) l := by
    induction l with
    | nil => simp [filter_debris_only]
    | cons a t ih =>
      by_cases hd : isDebris a
      · simp only [filter_debris_only, hd, if_true]
        exact List.Sublist.cons₂ a ih
      · simp only [filter_debris_only, hd, Bool.false_eq_true, if_false]
        exact List.Sublist.cons a ih
  exact ⟨h, h.length_le⟩

/-- The stats loop never touches the total taken up front. -/
theorem foldl_statsStep_total (l : List RawCatalogRecord) (s : StatsSummary) :
    (l.foldl statsStep s).total_debris = s.total_debris := by
  induction l generalizing s with
  | nil => rfl
  | cons a t ih =>
    rw [List.foldl_cons, ih]
    rfl

/-- Each loop iteration adds exactly one to the country tally. -/
theorem foldl_statsStep_country (l : List RawCatalogRecord) (s : StatsSummary) :
    sumValues (l.foldl statsStep s).by_country = sumValues s.by_country + l.length := by
  induction l generalizing s with
  | nil => simp
  | cons a t ih =>
    rw [List.foldl_cons, ih]
    have h : sumValues (statsStep s a).by_country = sumValues s.by_country + 1 := by
      simp [statsStep, sumValues_dictIncrement]
    rw [h, List.length_cons]
    omega

/-- Each loop iteration adds exactly one to the type tally. -/
theorem foldl_statsStep_type (l : List RawCatalogRecord) (s : StatsSummary) :
    sumValues (l.foldl statsStep s).by_type = sumValues s.by_type + l.length := by
  induction l generalizing s with
  | nil => simp
  | cons a t ih =>
    rw [List.foldl_cons, ih]
    have h : sumValues (statsStep s a).by_type = sumValues s.by_type + 1 := by
      simp [statsStep, sumValues_dictIncrement]
    rw [h, List.length_cons]
    omega

/-- Each loop iteration adds at most one to the altitude tally. -/
theorem altitudeStep_altSum_le (b : AltitudeRanges) (r : RawCatalogRecord) :
    altSum (altitudeStep b r) ≤ altSum b + 1 := by
  cases h : calculate_altitude r with
  | none => simp [altitudeStep, h]
  | some a =>
    simp only [altitudeStep, h]
    split_ifs <;> simp [altSum] <;> omega

/-- Over the whole loop the altitude tally is bounded by the record count. -/
theorem foldl_statsStep_alt (l : List RawCatalogRecord) (s : StatsSummary) :
    altSum (l.foldl statsStep s).by_altitude ≤ altSum s.by_altitude + l.length := by
  induction l generalizing s with
  | nil => simp
  | cons a t ih =>
    rw [List.foldl_cons]
    have h1 := ih (statsStep s a)
    have h2 : altSum (statsStep s a).by_altitude ≤ altSum s.by_altitude + 1 :=
      altitudeStep_altSum_le s.by_altitude a
    rw [List.length_cons]
    omega

/-- Claim C4: for any debris list the statistics satisfy
sum(by_country) = total_debris, sum(by_type) = total_debris and
sum(by_altitude) <= total_debris, with total_debris the list length. -/
theorem stats_partition_sums (debris : List RawCatalogRecord) :
    (computeStats debris).total_debris = debris.length ∧
    sumValues (computeStats debris).by_country = (computeStats debris).total_debris ∧
    sumValues (computeStats debris).by_type = (computeStats debris).total_debris ∧
    altSum (computeStats debris).by_altitude ≤ (computeStats debris).total_debris := by
  have htot : (computeStats debris).total_debris = debris.length := by
    simp only [computeStats]
    rw [foldl_statsStep_total]
  refine ⟨htot, ?_, ?_, ?_⟩
  · rw [htot]
    simp only [computeStats]
    rw [foldl_statsStep_country]
    simp [sumValues]
  · rw [htot]
    simp only [computeStats]
    rw [foldl_statsStep_type]
    simp [sumValues]
  · rw [htot]
    simp only [computeStats]
    have := foldl_statsStep_alt debris
      { total_debris := debris.length
        by_country := []
        by_altitude := { low := 0, medium := 0, high := 0 }
        by_type := [] }
    simpa [altSum] using this

/-- At 100 revolutions/day the orbital radius falls far inside the Earth, so
the Kepler altitude is well below -1000 km. -/
theorem keplerAltitude_r100_neg : keplerAltitude 100 < -1000 := by
  have hpi : (3 : ℝ) < Real.pi := Real.pi_gt_three
  have h2pi : (0 : ℝ) < 2 * Real.pi := by positivity
  have hcast : ((100 : ℚ) : ℝ) = 100 := by norm_num
  have hq : (864 : ℝ) / (2 * Real.pi) ≤ 144 := by
    rw [div_le_iff₀ h2pi]
    nlinarith
  have hq0 : (0 : ℝ) ≤ 864 / (2 * Real.pi) := by positivity
  have hsq : ((864 : ℝ) / (2 * Real.pi)) ^ (2 : ℕ) ≤ 20736 := by
    have h := pow_le_pow_left₀ hq0 hq 2
    norm_num at h
    exact h
  have hX : (398600.4418 : ℝ) * ((864 : ℝ) / (2 * Real.pi)) ^ (2 : ℕ) <
      (5371 : ℝ) ^ (3 : ℕ) := by
    nlinarith
  have hX0 : (0 : ℝ) ≤ 398600.4418 * ((864 : ℝ) / (2 * Real.pi)) ^ (2 : ℕ) := by
    positivity
  have hr : (398600.4418 * ((864 : ℝ) / (2 * Real.pi)) ^ (2 : ℕ)) ^ ((1 : ℝ) / 3) <
      ((5371 : ℝ) ^ (3 : ℕ)) ^ ((1 : ℝ) / 3) :=
    Real.rpow_lt_rpow hX0 hX (by norm_num)
  have hc : ((5371 : ℝ) ^ (3 : ℕ)) ^ ((1 : ℝ) / 3) = 5371 := by
    rw [← Real.rpow_natCast (5371 : ℝ) 3,
      ← Real.rpow_mul (by norm_num : (0 : ℝ) ≤ 5371)]
    norm_num
  rw [hc] at hr
  simp only [keplerAltitude, hcast]
  have hps : (1440 : ℝ) / 100 * 60 = 864 := by norm_num
  rw [hps]
  linarith

/-- Rounding to two decimals keeps a number below -1 negative. -/
theorem round2_neg_of_lt (x : ℝ) (h : x < -1) : round2 x < 0 := by
  have h2 : round (x * 100) < 0 := by
    rw [round_eq]
    have : x * 100 + 1 / 2 < ((0 : ℤ) : ℝ) := by
      push_cast
      nlinarith
    exact Int.floor_lt.mpr this
  have h3 : ((round (x * 100) : ℤ) : ℝ) < 0 := by exact_mod_cast h2
  have h4 : (0 : ℝ) < 100 := by norm_num
  simpa [round2] using div_neg_of_neg_of_pos h3 h4

/-- The estimator value at the concrete record with mean motion 100. -/
theorem calculate_altitude_r100 :
    calculate_altitude r100 = some (round2 (keplerAltitude 100)) := by
  simp [calculate_altitude, r100, floatParse,
    show (100 : ℚ) ≠ 0 by norm_num]

/-- The rounded altitude of r100 is negative. -/
theorem r100_altitude_neg : round2 (keplerAltitude 100) < 0 :=
  round2_neg_of_lt _ (by linarith [keplerAltitude_r100_neg])

/-- Counterexample to C5 as stated: a record with mean motion 100 has a
defined (negative) altitude estimate, the aggregator increments the Low
bucket, yet the altitude does not lie in the claimed boundary [0, 2000). -/
theorem altitude_band_counterexample :
    ¬ (∀ (s : StatsSummary) (r : RawCatalogRecord) (a : ℝ),
        calculate_altitude r = some a →
        (((statsStep s r).by_altitude.low = s.by_altitude.low + 1 ↔
            0 ≤ a ∧ a < 2000) ∧
         ((statsStep s r).by_altitude.medium = s.by_altitude.medium + 1 ↔
            2000 ≤ a ∧ a < 35000) ∧
         ((statsStep s r).by_altitude.high = s.by_altitude.high + 1 ↔
            35000 ≤ a))) := by
  intro hclaim
  have hneg := r100_altitude_neg
  have h := (hclaim statsInit r100 _ calculate_altitude_r100).1
  have hlow : (statsStep statsInit r100).by_altitude.low =
      statsInit.by_altitude.low + 1 := by
    have h0 : round2 (keplerAltitude 100) ≠ 0 := ne_of_lt hneg
    have h2k : round2 (keplerAltitude 100) < 2000 := by linarith
    simp [statsStep, altitudeStep, calculate_altitude_r100, h0, h2k]
  exact absurd ((h.mp hlow).1) (not_le.mpr hneg)

/-- Claim C5, amended: when the altitude estimate is defined and nonzero,
exactly one bucket is incremented, with Low taking every altitude below
2000 km (negative ones included), Medium [2000, 35000) and High [35000, inf);
an undefined or exactly-zero altitude leaves the altitude tally unchanged,
while the record is still counted in the country and type tallies and
total_debris is untouched by the loop. -/
theorem altitude_band_amended (s : StatsSummary) (r : RawCatalogRecord) :
    (∀ a : ℝ, calculate_altitude r = some a → a ≠ 0 →
      ((a < 2000 → (statsStep s r).by_altitude =
          { s.by_altitude with low := s.by_altitude.low + 1 }) ∧
       (2000 ≤ a → a < 35000 → (statsStep s r).by_altitude =
          { s.by_altitude with medium := s.by_altitude.medium + 1 }) ∧
       (35000 ≤ a → (statsStep s r).by_altitude =
          { s.by_altitude with high := s.by_altitude.high + 1 }))) ∧
    ((calculate_altitude r = none ∨ calculate_altitude r = some 0) →
      (statsStep s r).by_altitude = s.by_altitude) ∧
    sumValues (statsStep s r).by_country = sumValues s.by_country + 1 ∧
    sumValues (statsStep s r).by_type = sumValues s.by_type + 1 ∧
    (statsStep s r).total_debris = s.total_debris := by
  refine ⟨?_, ?_, ?_, ?_, rfl⟩
  · intro a ha hne
    refine ⟨?_, ?_, ?_⟩
    · intro h1
      simp [statsStep, altitudeStep, ha, hne, h1]
    · intro h1 h2
      simp [statsStep, altitudeStep, ha, hne, not_lt.mpr h1, h2]
    · intro h1
      have h2 : ¬ a < 2000 := not_lt.mpr (le_trans (by norm_num) h1)
      simp [statsStep, altitudeStep, ha, hne, h2, not_lt.mpr h1]
  · rintro (h | h) <;> simp [statsStep, altitudeStep, h]
  · simp [statsStep, sumValues_dictIncrement]
  · simp [statsStep, sumValues_dictIncrement]

/-- Witness for the amended C5: the record with mean motion 100 has a
defined nonzero (negative) altitude and lands in the Low bucket. -/
theorem altitude_band_amended_witness :
    (statsStep statsInit r100).by_altitude =
      { statsInit.by_altitude with low := statsInit.by_altitude.low + 1 } :=
  ((altitude_band_amended statsInit r100).1 (round2 (keplerAltitude 100))
    calculate_altitude_r100 (ne_of_lt r100_altitude_neg)).1
    (by linarith [r100_altitude_neg])

/-- Counterexample to C6 as stated: a successful fetch that returns an empty
body is not written to the cache (Python truthiness), so a second call only
60 seconds later, with the old cache file still readable, performs another
remote call and returns different data. -/
theorem cache_freshness_counterexample :
    ¬ (∀ (t0 t1 : ℚ) (f0 : CacheFile) (d : List RawCatalogRecord)
          (o : HttpOutcome),
        (get_cached_or_fetch t0 f0 (HttpOutcome.success d)).remoteCalls = 1 →
        readCache (get_cached_or_fetch t0 f0 (HttpOutcome.success d)).newFile ≠
          none →
        t1 - t0 < CACHE_DURATION →
        (get_cached_or_fetch t1
            (get_cached_or_fetch t0 f0 (HttpOutcome.success d)).newFile
            o).remoteCalls = 0 ∧
        (get_cached_or_fetch t1
            (get_cached_or_fetch t0 f0 (HttpOutcome.success d)).newFile
            o).data =
          (get_cached_or_fetch t0 f0 (HttpOutcome.success d)).data) := by
  intro hclaim
  have e1 : get_cached_or_fetch 30000
      (CacheFile.valid { timestamp := 0, data := [rBody] })
      (HttpOutcome.success []) =
      { data := some []
        newFile := CacheFile.valid { timestamp := 0, data := [rBody] }
        remoteCalls := 1 } := by
    norm_num [get_cached_or_fetch, readCache, fetchFresh, fetch_celestrak_data,
      CACHE_DURATION]
  have e2 : get_cached_or_fetch 30060
      (CacheFile.valid { timestamp := 0, data := [rBody] })
      (HttpOutcome.success [rBody]) =
      { data := some [rBody]
        newFile := CacheFile.valid { timestamp := 30060, data := [rBody] }
        remoteCalls := 1 } := by
    norm_num [get_cached_or_fetch, readCache, fetchFresh, fetch_celestrak_data,
      CACHE_DURATION]
  have h := hclaim 30000 30060
    (CacheFile.valid { timestamp := 0, data := [rBody] }) []
    (HttpOutcome.success [rBody]) (by rw [e1]) (by rw [e1]; simp [readCache])
    (by norm_num [CACHE_DURATION])
  have h1 := h.1
  rw [e1] at h1
  rw [e2] at h1
  exact absurd h1 one_ne_zero

/-- Claim C6, amended: a call within 6 hours of a prior successful fetch that
returned non-empty data performs zero remote calls and returns that same
data; a call with no cache file, or against a cache more than 6 hours old,
performs exactly one remote call. -/
theorem cache_freshness_amended :
    (∀ (t0 t1 : ℚ) (f0 : CacheFile) (d : List RawCatalogRecord)
        (o : HttpOutcome),
      d ≠ [] →
      (get_cached_or_fetch t0 f0 (HttpOutcome.success d)).remoteCalls = 1 →
      t1 - t0 < CACHE_DURATION →
      (get_cached_or_fetch t0 f0 (HttpOutcome.success d)).data = some d ∧
      get_cached_or_fetch t1
          (get_cached_or_fetch t0 f0 (HttpOutcome.success d)).newFile o =
        { data := some d
          newFile := CacheFile.valid { timestamp := t0, data := d }
          remoteCalls := 0 }) ∧
    (∀ (t : ℚ) (o : HttpOutcome),
      (get_cached_or_fetch t CacheFile.absent o).remoteCalls = 1) ∧
    (∀ (t : ℚ) (env : CacheEnvelope) (o : HttpOutcome),
      CACHE_DURATION < t - env.timestamp →
      (get_cached_or_fetch t (CacheFile.valid env) o).remoteCalls = 1) := by
  refine ⟨?_, ?_, ?_⟩
  · intro t0 t1 f0 d o hd hfetch ht
    have hfirst : get_cached_or_fetch t0 f0 (HttpOutcome.success d) =
        { data := some d
          newFile := CacheFile.valid { timestamp := t0, data := d }
          remoteCalls := 1 } := by
      cases f0 with
      | absent => simp [get_cached_or_fetch, readCache, fetchFresh,
          fetch_celestrak_data, hd]
      | corrupt => simp [get_cached_or_fetch, readCache, fetchFresh,
          fetch_celestrak_data, hd]
      | noTimestamp => simp [get_cached_or_fetch, readCache, fetchFresh,
          fetch_celestrak_data, hd]
      | valid env =>
        by_cases hfr : t0 - env.timestamp < CACHE_DURATION
        · exfalso
          simp [get_cached_or_fetch, readCache, hfr] at hfetch
        · simp [get_cached_or_fetch, readCache, hfr, fetchFresh,
            fetch_celestrak_data, hd]
    rw [hfirst]
    exact ⟨rfl, by simp [get_cached_or_fetch, readCache, ht]⟩
  · intro t o
    simp [get_cached_or_fetch, readCache, fetchFresh_remoteCalls]
  · intro t env o hst
    have hns : ¬ t - env.timestamp < CACHE_DURATION := not_lt.mpr (le_of_lt hst)
    simp [get_cached_or_fetch, readCache, hns, fetchFresh_remoteCalls]

/-- Witness for the amended C6: a fetch of one record at time 0 with no
prior cache, then a second call 100 seconds later that is served from the
cache with zero remote calls. -/
theorem cache_freshness_witness :
    (get_cached_or_fetch 0 CacheFile.absent
        (HttpOutcome.success [rBody])).data = some [rBody] ∧
    get_cached_or_fetch 100
        (get_cached_or_fetch 0 CacheFile.absent
          (HttpOutcome.success [rBody])).newFile HttpOutcome.networkError =
      { data := some [rBody]
        newFile := CacheFile.valid { timestamp := 0, data := [rBody] }
        remoteCalls := 0 } :=
  cache_freshness_amended.1 0 100 CacheFile.absent [rBody]
    HttpOutcome.networkError (by simp)
    (by simp [get_cached_or_fetch, readCache, fetchFresh, fetch_celestrak_data])
    (by norm_num [CACHE_DURATION])

/-- Claim C7: a missing cache file, unparsable JSON, or an envelope without a
usable timestamp is treated as a cache miss: the layer proceeds to exactly
one fresh remote fetch and returns its result, raising nothing. -/
theorem cache_read_error_fallback (t : ℚ) (f : CacheFile) (o : HttpOutcome)
    (h : f = CacheFile.absent ∨ f = CacheFile.corrupt ∨
      f = CacheFile.noTimestamp) :
    get_cached_or_fetch t f o = fetchFresh t f o ∧
    (get_cached_or_fetch t f o).remoteCalls = 1 ∧
    (get_cached_or_fetch t f o).data = fetch_celestrak_data o := by
  have hrc : readCache f = none := by
    rcases h with h | h | h <;> subst h <;> rfl
  have he : get_cached_or_fetch t f o = fetchFresh t f o := by
    simp [get_cached_or_fetch, hrc]
  refine ⟨he, ?_, ?_⟩
  · rw [he]
    exact fetchFresh_remoteCalls t f o
  · rw [he]
    exact fetchFresh_data t f o

/-- Witness for C7 at a corrupt cache file and a successful remote fetch. -/
theorem cache_read_error_witness :
    get_cached_or_fetch 0 CacheFile.corrupt (HttpOutcome.success [rBody]) =
      fetchFresh 0 CacheFile.corrupt (HttpOutcome.success [rBody]) ∧
    (get_cached_or_fetch 0 CacheFile.corrupt
        (HttpOutcome.success [rBody])).remoteCalls = 1 ∧
    (get_cached_or_fetch 0 CacheFile.corrupt
        (HttpOutcome.success [rBody])).data =
      fetch_celestrak_data (HttpOutcome.success [rBody]) :=
  cache_read_error_fallback 0 CacheFile.corrupt (HttpOutcome.success [rBody])
    (Or.inr (Or.inl rfl))

/-- Claim C9: a failed remote fetch (non-2xx or network error) yields None
from the fetch layer without raising, and the cache layer then returns that
failure even over a stale-but-valid cache file, leaving the file unchanged
after its single remote call. -/
theorem fetch_failure_no_fallback (o : HttpOutcome)
    (h : o = HttpOutcome.httpError ∨ o = HttpOutcome.networkError) :
    fetch_celestrak_data o = none ∧
    ∀ (t : ℚ) (env : CacheEnvelope), ¬ t - env.timestamp < CACHE_DURATION →
      get_cached_or_fetch t (CacheFile.valid env) o =
        { data := none, newFile := CacheFile.valid env, remoteCalls := 1 } := by
  have hf : fetch_celestrak_data o = none := by
    rcases h with h | h <;> subst h <;> rfl
  refine ⟨hf, ?_⟩
  intro t env hstale
  simp [get_cached_or_fetch, readCache, hstale, fetchFresh, hf]

/-- Witness for C9: a network failure over a stale cache entry returns
failure, keeps the cache file, and makes one remote call. -/
theorem fetch_failure_witness :
    get_cached_or_fetch 30000
        (CacheFile.valid { timestamp := 0, data := [rBody] })
        HttpOutcome.networkError =
      { data := none
        newFile := CacheFile.valid { timestamp := 0, data := [rBody] }
        remoteCalls := 1 } :=
  (fetch_failure_no_fallback HttpOutcome.networkError (Or.inr rfl)).2 30000
    { timestamp := 0, data := [rBody] } (by norm_num [CACHE_DURATION])

/-- Counterexample to C8 as stated: a record whose OBJECT_ID is present but
empty gets the empty country code, not the claimed default UN, in both the
normalizer and the aggregator. -/
theorem country_code_counterexample :
    (parse_satellite_data [rEmptyId]).map DebrisView.country = [""] ∧
    (statsStep statsInit rEmptyId).by_country = [("", 1)] ∧
    ("" : String) ≠ "UN" := by
  refine ⟨by decide, by decide, by decide⟩

/-- Claim C8, amended: the derived country code is the first two characters
of OBJECT_ID whenever the field is present (so an empty OBJECT_ID yields the
empty code), and the default UN exactly when the field is absent; the record
normalizer and the aggregator agree on this derivation. -/
theorem country_code_amended (data : List RawCatalogRecord) (s : StatsSummary)
    (r : RawCatalogRecord) :
    (parse_satellite_data data).map DebrisView.country =
      data.map specCountryCode ∧
    (statsStep s r).by_country = dictIncrement s.by_country (specCountryCode r) := by
  have key : ∀ x : RawCatalogRecord,
      strTake2 (x.OBJECT_ID.getD "UN") = specCountryCode x := by
    intro x
    cases h : x.OBJECT_ID with
    | none => simp [specCountryCode, h]; decide
    | some id => simp [specCountryCode, h]
  constructor
  · simp [parse_satellite_data, List.map_map, Function.comp, key]
  · simp [statsStep, key]
